import Mathlib

set_option linter.unusedVariables false

/-!
Verification of the ssr_modes example (src/examples/ssr_modes/src/app.rs)
and of the SSR suspense/streaming engine it exercises.

The example file itself contains the route table, the components
(App, HomePage, PostPage, Post, Comments), the dummy data source
(POSTS, list_post_metadata, get_post, get_comments) and the error type
PostError.  Those are embedded directly from the source.  The rendering
machinery (resources, suspense boundaries, streaming modes, error
boundaries, the router matcher) lives in the leptos framework, which is
not part of the sources; those parts are modelled from the spec and are
marked as such in their doc comments.

Layout: all definitions first, then all theorems.
-/

namespace SsrModes

/-- Error type of the server-function transport.  The example never
constructs one itself; a single constructor carrying a message models
the opaque cause. -/
inductive ServerFnError where
  | err (msg : String)
deriving DecidableEq, Repr

/-- `PostError` from app.rs lines 200-208. -/
inductive PostError where
  | invalidId
  | postNotFound
  | serverError
deriving DecidableEq, Repr

/-- The `#[error("...")]` display strings of `PostError`
(app.rs lines 202, 204, 206). -/
def PostError.display : PostError → String
  | .invalidId => "Invalid post ID."
  | .postNotFound => "Post not found."
  | .serverError => "Server error."

/-- `Post` struct from app.rs lines 210-215. -/
structure Post where
  id : Nat
  title : String
  content : String
deriving DecidableEq, Repr

/-- `PostMetadata` struct from app.rs lines 217-221. -/
structure PostMetadata where
  id : Nat
  title : String
deriving DecidableEq, Repr

/-- `Comment` struct from app.rs lines 254-257 (no fields used). -/
structure Comment where
deriving DecidableEq, Repr

/-- The `POSTS` static from app.rs lines 180-198. -/
def POSTS : List Post :=
  [ { id := 0, title := "My first post", content := "This is my first post" },
    { id := 1, title := "My second post", content := "This is my second post" },
    { id := 2, title := "My third post", content := "This is my third post" } ]

/-- `list_post_metadata` from app.rs lines 223-235: maps every entry of
`POSTS` to its metadata and returns `Ok`.  The `sleep` is timing only. -/
def list_post_metadata : Except ServerFnError (List PostMetadata) :=
  .ok (POSTS.map fun data => { id := data.id, title := data.title })

/-- `get_post` from app.rs lines 237-243: finds the post with the given
id in `POSTS` and returns `Ok` of that option. -/
def get_post (id : Nat) : Except ServerFnError (Option Post) :=
  .ok (POSTS.find? fun post => post.id == id)

/-- `get_comments` from app.rs lines 247-252: returns `Ok` of the empty
vector for every `post_id`. -/
def get_comments (post_id : Nat) : Except ServerFnError (List Comment) :=
  .ok []

/-- The result-mapping applied by the `Post` component fetcher
(app.rs lines 107-111):
`get_post(id).await.map(|data| data.ok_or(PostError::PostNotFound))
  .map_err(|_| PostError::ServerError).flatten()`. -/
def postFetcherMap (r : Except ServerFnError (Option Post)) :
    Except PostError Post :=
  match r with
  | .ok (some p) => .ok p
  | .ok none => .error .postNotFound
  | .error _ => .error .serverError

/-- The fetcher of the `post` resource in the `Post` component
(app.rs lines 105-113). -/
def postFetcher (id : Nat) : Except PostError Post :=
  postFetcherMap (get_post id)

/-- The fetcher of the `comments` resource in the `Comments` component
(app.rs lines 158-162):
`get_comments(post_id).await.map_err(|_| PostError::ServerError)`. -/
def commentsFetcher (post_id : Nat) : Except PostError (List Comment) :=
  match get_comments post_id with
  | .ok cs => .ok cs
  | .error _ => .error .serverError

/-- The text rendered inside the `Comments` component content once its
resource resolves (app.rs line 167):
`"Found " {comments.len()} " comments."`. -/
def commentsFoundText (comments : List Comment) : String :=
  "Found " ++ toString comments.length ++ " comments."

/-! ## Routing and PostPage parameter extraction -/

/-- The four streaming render modes of §4.1 (`SsrMode` in the source). -/
inductive SsrMode where
  | outOfOrder
  | inOrder
  | async
  | partiallyBlocked
deriving DecidableEq, Repr

/-- Modelled from the spec: out-of-order is the default mode, used when a
route declares no `ssr` mode. -/
def SsrMode.defaultMode : SsrMode := .outOfOrder

/-- The two page views the route table points at. -/
inductive RouteView where
  | homePage
  | postPage
deriving DecidableEq, Repr

/-- One `<Route/>` entry: path pattern, view, render mode. -/
structure RouteDef where
  path : String
  view : RouteView
  mode : SsrMode
deriving DecidableEq, Repr

/-- The route table of `App` (app.rs lines 29-48).  The first route gives
no `ssr` mode and so takes the default. -/
def routes : List RouteDef :=
  [ ⟨"", .homePage, SsrMode.defaultMode⟩,
    ⟨"/home/in-order", .homePage, .inOrder⟩,
    ⟨"/home/async", .homePage, .async⟩,
    ⟨"/home/partially-blocked", .homePage, .partiallyBlocked⟩,
    ⟨"/post/:id", .postPage, .async⟩,
    ⟨"/post_in_order/:id", .postPage, .inOrder⟩ ]

/-- Splits a character list at every slash. -/
def splitSlash : List Char → List Char → List (List Char)
  | [], acc => [acc.reverse]
  | c :: cs, acc =>
      if c = '/' then acc.reverse :: splitSlash cs []
      else splitSlash cs (c :: acc)

/-- Path split into nonempty segments. -/
def pathSegs (p : String) : List (List Char) :=
  (splitSlash p.toList []).filter (fun s => !s.isEmpty)

/-- Modelled from the spec: the routing collaborator matches one path
segment against one pattern segment; a `:name` pattern segment captures
any nonempty segment, anything else must match exactly. -/
def segMatches (pat seg : List Char) : Bool :=
  match pat with
  | ':' :: _ => !seg.isEmpty
  | _ => pat == seg

/-- Modelled from the spec: a route pattern matches a path when their
segment lists have equal length and match segmentwise. -/
def routeMatches (pat path : String) : Bool :=
  let ps := pathSegs pat
  let qs := pathSegs path
  ps.length == qs.length &&
    (List.zip ps qs).all (fun pq => segMatches pq.1 pq.2)

/-- Modelled from the spec: the routing collaborator supplies
(view, mode) per matched path; the first matching table entry wins. -/
def matchRoute (path : String) : Option RouteDef :=
  routes.find? (fun r => routeMatches r.path path)

/-- Router dispatch: the matched view and mode, or the `Router`
fallback text "Page not found." (app.rs line 12). -/
def routerDispatch (path : String) : Except String (RouteView × SsrMode) :=
  match matchRoute path with
  | some r => .ok (r.view, r.mode)
  | none => .error "Page not found."

/-- Accumulates decimal digits; fails at the first non-digit. -/
def parseDigits : List Char → Nat → Option Nat
  | [], acc => some acc
  | c :: cs, acc =>
      if c.isDigit then parseDigits cs (acc * 10 + (c.toNat - 48))
      else none

/-- Modelled from the spec: the `Params` extraction of the `:id` path
parameter parses it as a `usize`; a non-numeric (or empty) segment
fails to parse. -/
def parseUsize (s : String) : Option Nat :=
  match s.toList with
  | [] => none
  | cs => parseDigits cs 0

/-- The id accessor of `PostPage` (app.rs lines 84-89): the parsed
params mapped to their id, with a parse error mapped to
`PostError.invalidId`. -/
def postPageId (raw : String) : Except PostError Nat :=
  match parseUsize raw with
  | some n => .ok n
  | none => .error .invalidId

/-- What `PostPage` renders when its id result is `Ok`. -/
inductive RenderedPage where
  | postComponent (id : Nat)
deriving DecidableEq, Repr

/-- The view of `PostPage` (app.rs lines 91-95):
`id().map(|id| view! { <Post id /> })`. -/
def postPageView (raw : String) : Except PostError RenderedPage :=
  (postPageId raw).map .postComponent

/-! ## String helpers for the render model -/

/-- Concatenation of an emitted chunk list into one document. -/
def strConcat : List String → String
  | [] => ""
  | s :: l => s ++ strConcat l

/-- Boolean test that the first character list is a prefix of the
second. -/
def prefixOfB : List Char → List Char → Bool
  | [], _ => true
  | _ :: _, [] => false
  | a :: as, b :: bs => a == b && prefixOfB as bs

/-- Boolean test that the needle occurs contiguously in the haystack. -/
def hasSubList (needle : List Char) : List Char → Bool
  | [] => needle.isEmpty
  | c :: cs => prefixOfB needle (c :: cs) || hasSubList needle cs

/-- Boolean substring test on strings. -/
def strContains (s sub : String) : Bool :=
  hasSubList sub.toList s.toList

/-! ## Error boundary -/

/-- The `ErrorBoundary` fallback of the `Post` component
(app.rs lines 133-145): a div with the heading
"Something went wrong." and one `<li>` per collected
(source, error) pair, in insertion order, each carrying the error's
display string. -/
def errorFallbackView (errors : List (String × PostError)) : String :=
  "<div class=\"error\"><h1>Something went wrong.</h1><ul>" ++
    strConcat (errors.map (fun se => "<li>" ++ se.2.display ++ "</li>")) ++
    "</ul></div>"

/-- Modelled from the spec: the Error Boundary machinery (leptos
framework, not in src) collects the (source, error) pairs bubbling from
failed resources in its subtree, in insertion order; when any are
present the rendered output is the fallback built from them,
substituted for the subtree content; otherwise the content renders
unchanged. -/
def renderErrorBoundary (errors : List (String × PostError))
    (content : String) : String :=
  if errors.isEmpty then content else errorFallbackView errors

/-! ## View trees and the render modes -/

/-- Modelled from the spec: the View Tree of §3 — static markup, dynamic
text, elements, suspense boundaries and error boundaries.  Children
lists are represented by binary sequencing (`seq`).  A suspense
boundary carries its blocking flag (true for
`create_blocking_resource`), its fallback markup, and the settled
outcome of its resources: `suspense` holds the resolved content tree,
`suspenseFailed` the error payload left after failure propagation
found no enclosing error boundary.  An error boundary carries the
(source, error) pairs collected from its subtree. -/
inductive VTree where
  | staticMarkup (s : String)
  | dynamicText (s : String)
  | seq (a b : VTree)
  | element (tag : String) (child : VTree)
  | suspense (blocking : Bool) (fallback : String) (content : VTree)
  | suspenseFailed (blocking : Bool) (fallback : String) (payload : String)
  | errorBoundary (errors : List (String × PostError)) (child : VTree)

/-- Modelled from the spec: the fully resolved markup of a subtree —
every suspense boundary replaced in place by its resolved content, a
failed boundary by its error payload (the streaming-mode degradation),
an error boundary by its content or its collected-errors fallback.
This is the content of a deferred streaming chunk and the document
skeleton that the in-order chunks concatenate to; it is NOT async
mode, which instead aborts on an unrecovered failed boundary (see
`renderAsyncMode`). -/
def resolvedMarkup : VTree → String
  | .staticMarkup s => s
  | .dynamicText s => s
  | .seq a b => resolvedMarkup a ++ resolvedMarkup b
  | .element tag c =>
      "<" ++ tag ++ ">" ++ resolvedMarkup c ++ "</" ++ tag ++ ">"
  | .suspense _ _ t => resolvedMarkup t
  | .suspenseFailed _ _ payload => payload
  | .errorBoundary errors c => renderErrorBoundary errors (resolvedMarkup c)

/-- Modelled from the spec: async mode computes the entire tree to
completion before emitting any bytes and yields one chunk with every
boundary resolved in place (no fallback, no placeholder); an
unrecovered Failed boundary aborts the whole render with a fatal error
carrying the error payload, and no document is produced — async never
delivers a partial document.  An error boundary with collected errors
substitutes its fallback for the subtree and recovery proceeds
normally. -/
def renderAsyncMode : VTree → Except String String
  | .staticMarkup s => .ok s
  | .dynamicText s => .ok s
  | .seq a b =>
      match renderAsyncMode a, renderAsyncMode b with
      | .ok x, .ok y => .ok (x ++ y)
      | .error e, _ => .error e
      | _, .error e => .error e
  | .element tag c =>
      match renderAsyncMode c with
      | .ok x => .ok ("<" ++ tag ++ ">" ++ x ++ "</" ++ tag ++ ">")
      | .error e => .error e
  | .suspense _ _ t => renderAsyncMode t
  | .suspenseFailed _ _ payload => .error payload
  | .errorBoundary errors c =>
      if errors.isEmpty then renderAsyncMode c
      else .ok (errorFallbackView errors)

/-- Modelled from the spec: in-order mode traverses top-to-bottom,
emitting prior content when a boundary is reached, then blocking the
stream until the boundary resolves.  `inOrderChunks t buf` threads the
pending not-yet-flushed buffer and returns (pending buffer afterwards,
chunks emitted while processing `t`). -/
def inOrderChunks : VTree → String → String × List String
  | .staticMarkup s, buf => (buf ++ s, [])
  | .dynamicText s, buf => (buf ++ s, [])
  | .seq a b, buf =>
      let r := inOrderChunks a buf
      let r2 := inOrderChunks b r.1
      (r2.1, r.2 ++ r2.2)
  | .element tag c, buf =>
      let r := inOrderChunks c (buf ++ "<" ++ tag ++ ">")
      (r.1 ++ "</" ++ tag ++ ">", r.2)
  | .suspense _ _ t, buf =>
      let r := inOrderChunks t ""
      (r.1, buf :: r.2)
  | .suspenseFailed _ _ payload, buf => (buf ++ payload, [])
  | .errorBoundary errors c, buf =>
      if errors.isEmpty then inOrderChunks c buf
      else (buf ++ errorFallbackView errors, [])

/-- The full in-order chunk stream of a tree: the chunks emitted during
traversal followed by the final pending buffer. -/
def renderInOrder (t : VTree) : List String :=
  (inOrderChunks t "").2 ++ [(inOrderChunks t "").1]

/-- The placeholder marker embedded in the shell for boundary `n`. -/
def placeholderMarker (n : Nat) : String :=
  "<!--suspense-" ++ toString n ++ "-->"

/-- Modelled from the spec: the initial shell of partially-blocked mode.
Boundaries flagged blocking are resolved synchronously in place before
the flush; non-blocking boundaries contribute their fallback plus a
placeholder marker and are deferred.  Boundary ids are assigned in
traversal order; returns (shell markup, next boundary id). -/
def pbShell : VTree → Nat → String × Nat
  | .staticMarkup s, n => (s, n)
  | .dynamicText s, n => (s, n)
  | .seq a b, n =>
      let r := pbShell a n
      let r2 := pbShell b r.2
      (r.1 ++ r2.1, r2.2)
  | .element tag c, n =>
      let r := pbShell c n
      ("<" ++ tag ++ ">" ++ r.1 ++ "</" ++ tag ++ ">", r.2)
  | .suspense true _ t, n => pbShell t n
  | .suspense false fb _, n => (fb ++ placeholderMarker n, n + 1)
  | .suspenseFailed true _ payload, n => (payload, n)
  | .suspenseFailed false fb _, n => (fb ++ placeholderMarker n, n + 1)
  | .errorBoundary errors c, n =>
      if errors.isEmpty then pbShell c n else (errorFallbackView errors, n)

/-- Modelled from the spec: the deferred chunks of partially-blocked
mode — for each non-blocking boundary, in traversal order, the chunk
(boundary id, resolved content) to be spliced at its placeholder.
Boundary ids are assigned exactly as in `pbShell`. -/
def pbDeferred : VTree → Nat → List (Nat × String) × Nat
  | .staticMarkup _, n => ([], n)
  | .dynamicText _, n => ([], n)
  | .seq a b, n =>
      let r := pbDeferred a n
      let r2 := pbDeferred b r.2
      (r.1 ++ r2.1, r2.2)
  | .element _ c, n => pbDeferred c n
  | .suspense true _ t, n => pbDeferred t n
  | .suspense false _ t, n => ([(n, resolvedMarkup t)], n + 1)
  | .suspenseFailed true _ _, n => ([], n)
  | .suspenseFailed false _ payload, n => ([(n, payload)], n + 1)
  | .errorBoundary errors c, n =>
      if errors.isEmpty then pbDeferred c n else ([], n)

/-- The partially-blocked chunk stream: the shell first, then the
deferred chunks in emission order. -/
def renderPartiallyBlocked (t : VTree) : List String :=
  (pbShell t 0).1 :: ((pbDeferred t 0).1.map (fun d => d.2))

/-! ## The concrete trees of the example -/

/-- The resolved content of the `post` resource view in the `Post`
component (app.rs lines 115-129): an h1 with the title and a p with
the content; on failure the content view yields nothing (the error is
collected by the error boundary instead). -/
def postViewTree (id : Nat) : VTree :=
  match postFetcher id with
  | .ok p => .seq (.element "h1" (.staticMarkup p.title))
      (.element "p" (.staticMarkup p.content))
  | .error _ => .staticMarkup ""

/-- The (source, error) pairs the `Post` error boundary collects from
its two owned resources, in insertion order. -/
def postErrors (id : Nat) : List (String × PostError) :=
  (match postFetcher id with
   | .ok _ => []
   | .error e => [("post", e)]) ++
  (match commentsFetcher id with
   | .ok _ => []
   | .error e => [("comments", e)])

/-- The `Comments` component tree (app.rs lines 156-177): a default
(non-blocking) suspense boundary whose resolved content is a div with
the comment-count text. -/
def commentsTreeFor (id : Nat) : VTree :=
  match commentsFetcher id with
  | .ok cs => .suspense false ""
      (.element "div" (.element "p" (.staticMarkup (commentsFoundText cs))))
  | .error _ => .suspenseFailed false "" ""

/-- The `Post` component tree (app.rs lines 131-153): a non-blocking
suspense boundary (its resource comes from `create_resource`) with the
"Loading post..." fallback, containing an error boundary around the
post div with the post view and the `Comments` component. -/
def postTreeFor (id : Nat) : VTree :=
  .suspense false "<p>Loading post...</p>"
    (.errorBoundary (postErrors id)
      (.element "div" (.seq (postViewTree id) (commentsTreeFor id))))

/-- The `PostPage` tree (app.rs lines 82-101): the `Post` component for
the parsed id, or the displayed error text. -/
def postPageTree (raw : String) : VTree :=
  match postPageView raw with
  | .ok (.postComponent id) => postTreeFor id
  | .error e => .staticMarkup e.display

/-- One `Post` component per listed post, in order (the collect_view of
app.rs lines 59-67). -/
def postsListTree (metas : List PostMetadata) : VTree :=
  metas.foldr (fun m acc => .seq (postTreeFor m.id) acc) (.staticMarkup "")

/-- The `HomePage` tree (app.rs lines 54-75): the h1 heading, then the
posts suspense boundary with the "Loading posts..." fallback.  Its
resource comes from `create_blocking_resource` (app.rs lines 57-58),
so the boundary is flagged blocking. -/
def homePageTree : VTree :=
  .seq (.element "h1" (.staticMarkup "My Great Blog"))
    (match list_post_metadata with
     | .ok metas =>
         .suspense true "<p>Loading posts...</p>" (postsListTree metas)
     | .error (.err msg) =>
         .suspenseFailed true "<p>Loading posts...</p>" msg)

/-! ## Resource state machine -/

/-- Modelled from the spec §3: a Resource state is Pending, Ready(value)
or Failed(error). -/
inductive RState (V E : Type) where
  | pending
  | ready (v : V)
  | failed (e : E)
deriving DecidableEq, Repr

/-- A state is terminal when it is Ready or Failed. -/
def RState.terminal {V E : Type} : RState V E → Bool
  | .pending => false
  | .ready _ => true
  | .failed _ => true

/-- Modelled from the spec: the only transitions a Resource state may
take within one render — Pending resolves to Ready or fails to
Failed. -/
inductive RStep {V E : Type} : RState V E → RState V E → Prop where
  | resolve (v : V) : RStep .pending (.ready v)
  | fail (e : E) : RStep .pending (.failed e)

/-- Settling a Resource from its fetcher outcome (as the posts, post
and comments fetchers produce): Ok becomes Ready, Err becomes
Failed. -/
def settle {V E : Type} : Except E V → RState V E
  | .ok v => .ready v
  | .error e => .failed e

/-! ## Render-scoped memoization -/

/-- Modelled from the spec §5: the render-scoped memo table mapping a
Resource key to its single evaluation result; a fresh render starts
with the empty table. -/
def lookupCache {K V : Type} [DecidableEq K] (cache : List (K × V))
    (k : K) : Option V :=
  (cache.find? (fun e => decide (e.1 = k))).map (fun e => e.2)

/-- Modelled from the spec: requesting a Resource with key `k` within
one render — a cached result is shared without re-running the fetcher;
otherwise the fetcher runs once and the result is stored.  Returns
(value, updated cache, whether the fetcher was evaluated). -/
def requestResource {K V : Type} [DecidableEq K] (cache : List (K × V))
    (k : K) (fetcher : Unit → V) : V × List (K × V) × Bool :=
  match lookupCache cache k with
  | some v => (v, cache, false)
  | none =>
      let v := fetcher ()
      (v, (k, v) :: cache, true)

/-- The key function every resource in the example uses
(app.rs lines 58, 105, 158): `|| ()`, a constant key. -/
def resourceKey : Unit → Unit := fun _ => ()

/-! ## Theorems -/

/-- All ids of `POSTS` are distinct, so an entry is determined by its
id. -/
theorem POSTS_ids_nodup : (POSTS.map Post.id).Nodup := by decide

/-- Claim C1: the `Post` component resource settles to a terminal
`Result`: `Ok p` exactly when `get_post id = Ok (Some p)`, which happens
exactly when `id` is the id of a `POSTS` entry and `p` is that entry;
`Err PostNotFound` when `get_post id = Ok None`; and `Err ServerError`
if and only if `get_post` itself returns `Err`. -/
theorem post_resource_terminal_result (id : Nat) :
    (∀ p : Post, get_post id = .ok (some p) →
        postFetcher id = .ok p ∧ p ∈ POSTS ∧ p.id = id) ∧
    ((∃ p ∈ POSTS, p.id = id) →
        ∃ p : Post, get_post id = .ok (some p) ∧ postFetcher id = .ok p ∧
          p ∈ POSTS ∧ p.id = id) ∧
    (get_post id = .ok none → postFetcher id = .error .postNotFound) ∧
    (postFetcher id = .error .serverError ↔
        ∃ e, get_post id = .error e) := by
  refine ⟨?_, ?_, ?_, ?_⟩
  · intro p hp
    have hf : POSTS.find? (fun post => post.id == id) = some p := by
      simpa [get_post] using hp
    refine ⟨?_, List.mem_of_find?_eq_some hf, ?_⟩
    · simp [postFetcher, postFetcherMap, get_post, hf]
    · have := List.find?_some hf
      simpa using this
  · rintro ⟨p, hmem, hid⟩
    have hs : (POSTS.find? (fun post => post.id == id)).isSome := by
      rw [List.find?_isSome]
      exact ⟨p, hmem, by simp [hid]⟩
    obtain ⟨q, hq⟩ := Option.isSome_iff_exists.mp hs
    refine ⟨q, by simp [get_post, hq],
      by simp [postFetcher, postFetcherMap, get_post, hq],
      List.mem_of_find?_eq_some hq, ?_⟩
    have := List.find?_some hq
    simpa using this
  · intro h
    have hf : POSTS.find? (fun post => post.id == id) = none := by
      simpa [get_post] using h
    simp [postFetcher, postFetcherMap, get_post, hf]
  · constructor
    · intro h
      exfalso
      cases hf : POSTS.find? (fun post => post.id == id) with
      | none => simp [postFetcher, postFetcherMap, get_post, hf] at h
      | some p => simp [postFetcher, postFetcherMap, get_post, hf] at h
    · rintro ⟨e, he⟩
      simp [get_post] at he

/-- Closed instance of `post_resource_terminal_result`: at id 1 the
resource yields the second post, and at id 7 it yields
`PostNotFound`. -/
theorem post_resource_terminal_result_witness :
    postFetcher 1 =
      .ok { id := 1, title := "My second post",
            content := "This is my second post" } ∧
    postFetcher 7 = .error .postNotFound :=
  ⟨((post_resource_terminal_result 1).1 _ (by rfl)).1,
   (post_resource_terminal_result 7).2.2.1 (by rfl)⟩

/-- Claim C8: the three data-source functions always return `Ok`
(they never construct an `Err`), hence the `Err` branches that the
`Post` and `Comments` components map to `PostError.serverError` are
unreachable. -/
theorem data_sources_never_err (id post_id : Nat) :
    list_post_metadata.isOk ∧ (get_post id).isOk ∧
    (get_comments post_id).isOk ∧
    postFetcher id ≠ .error .serverError ∧
    commentsFetcher post_id ≠ .error .serverError := by
  refine ⟨rfl, rfl, rfl, ?_, ?_⟩
  · cases hf : POSTS.find? (fun post => post.id == id) with
    | none => simp [postFetcher, postFetcherMap, get_post, hf]
    | some p => simp [postFetcher, postFetcherMap, get_post, hf]
  · simp [commentsFetcher, get_comments]

/-- Claim C10: `get_comments` returns `Ok` of the empty vector for every
`post_id`, so the resolved `Comments` content always reads
"Found 0 comments.". -/
theorem comments_always_zero (post_id : Nat) :
    ∃ cs : List Comment, commentsFetcher post_id = .ok cs ∧ cs = [] ∧
      commentsFoundText cs = "Found 0 comments." :=
  ⟨[], rfl, rfl, rfl⟩

/-- Claim C6: the routing table assigns exactly one mode per matched
path, out-of-order being the default: "" renders HomePage out-of-order,
"/home/in-order" InOrder, "/home/async" Async, "/home/partially-blocked"
PartiallyBlocked, "/post/:id" renders PostPage Async,
"/post_in_order/:id" PostPage InOrder, and unmatched paths render the
"Page not found." fallback. -/
theorem route_table_modes :
    SsrMode.defaultMode = .outOfOrder ∧
    routerDispatch "" = .ok (.homePage, .outOfOrder) ∧
    routerDispatch "/home/in-order" = .ok (.homePage, .inOrder) ∧
    routerDispatch "/home/async" = .ok (.homePage, .async) ∧
    routerDispatch "/home/partially-blocked" =
      .ok (.homePage, .partiallyBlocked) ∧
    routerDispatch "/post/5" = .ok (.postPage, .async) ∧
    routerDispatch "/post/abc" = .ok (.postPage, .async) ∧
    routerDispatch "/post_in_order/5" = .ok (.postPage, .inOrder) ∧
    routerDispatch "/nonexistent" = .error "Page not found." ∧
    routerDispatch "/post/5/extra" = .error "Page not found." := by
  refine ⟨rfl, ?_, ?_, ?_, ?_, ?_, ?_, ?_, ?_, ?_⟩ <;> rfl

/-- Claim C9: when the `:id` parameter fails to parse as a usize,
`PostPage` yields `Err PostError.invalidId`, displayed exactly as
"Invalid post ID."; when it parses, `PostPage` renders the `Post`
component with that id. -/
theorem post_page_invalid_id (raw : String) :
    (parseUsize raw = none →
        postPageView raw = .error .invalidId ∧
        PostError.display .invalidId = "Invalid post ID.") ∧
    (∀ n : Nat, parseUsize raw = some n →
        postPageView raw = .ok (.postComponent n)) := by
  constructor
  · intro h
    exact ⟨by simp [postPageView, postPageId, h, Except.map], rfl⟩
  · intro n h
    simp [postPageView, postPageId, h, Except.map]

/-- Closed instance of `post_page_invalid_id`: "abc" does not parse and
yields `invalidId`; "5" parses and renders `Post 5`. -/
theorem post_page_invalid_id_witness :
    (postPageView "abc" = .error .invalidId ∧
      PostError.display .invalidId = "Invalid post ID.") ∧
    postPageView "5" = .ok (.postComponent 5) :=
  ⟨(post_page_invalid_id "abc").1 (by rfl),
   (post_page_invalid_id "5").2 5 (by rfl)⟩

/-- Chunk concatenation distributes over list append. -/
theorem strConcat_append (l1 l2 : List String) :
    strConcat (l1 ++ l2) = strConcat l1 ++ strConcat l2 := by
  induction l1 with
  | nil => simp [strConcat, String.empty_append]
  | cons s l ih => simp [strConcat, ih, String.append_assoc]

/-- In-order invariant: the chunks emitted while processing a subtree,
followed by the pending buffer, spell the pending buffer it started
with followed by the fully resolved markup of that subtree. -/
theorem inOrderChunks_spec (t : VTree) : ∀ buf : String,
    strConcat (inOrderChunks t buf).2 ++ (inOrderChunks t buf).1 =
      buf ++ resolvedMarkup t := by
  induction t with
  | staticMarkup s =>
      intro buf
      simp [inOrderChunks, resolvedMarkup, strConcat, String.empty_append]
  | dynamicText s =>
      intro buf
      simp [inOrderChunks, resolvedMarkup, strConcat, String.empty_append]
  | seq a b iha ihb =>
      intro buf
      simp only [inOrderChunks, resolvedMarkup]
      rw [strConcat_append, String.append_assoc, ihb, ← String.append_assoc,
        iha, String.append_assoc]
  | element tag c ih =>
      intro buf
      simp only [inOrderChunks, resolvedMarkup]
      simp only [← String.append_assoc]
      rw [ih]
  | suspense blocking fb t ih =>
      intro buf
      simp only [inOrderChunks, strConcat, resolvedMarkup]
      rw [String.append_assoc, ih, String.empty_append]
  | suspenseFailed blocking fb payload =>
      intro buf
      simp [inOrderChunks, resolvedMarkup, strConcat, String.empty_append]
  | errorBoundary errors c ih =>
      intro buf
      by_cases he : errors.isEmpty
      · simp only [inOrderChunks, resolvedMarkup, he, if_true]
        rw [ih]
        simp [renderErrorBoundary, he]
      · simp [inOrderChunks, resolvedMarkup, renderErrorBoundary, he, strConcat,
          String.empty_append, String.append_assoc]

/-- The in-order chunk stream of any tree concatenates to the fully
resolved markup of that tree. -/
theorem renderInOrder_concat (t : VTree) :
    strConcat (renderInOrder t) = resolvedMarkup t := by
  unfold renderInOrder
  rw [strConcat_append]
  have h := inOrderChunks_spec t ""
  rw [String.empty_append] at h
  simpa [strConcat, String.append_empty] using h

/-- When async mode succeeds, the document it produces is the fully
resolved markup of the tree. -/
theorem renderAsyncMode_ok (t : VTree) :
    ∀ d : String, renderAsyncMode t = .ok d → resolvedMarkup t = d := by
  induction t with
  | staticMarkup s =>
      intro d h
      simpa [renderAsyncMode, resolvedMarkup] using h
  | dynamicText s =>
      intro d h
      simpa [renderAsyncMode, resolvedMarkup] using h
  | seq a b iha ihb =>
      intro d h
      simp only [renderAsyncMode] at h
      cases ha : renderAsyncMode a with
      | error e => rw [ha] at h; simp at h
      | ok x =>
          cases hb : renderAsyncMode b with
          | error e => rw [ha, hb] at h; simp at h
          | ok y =>
              rw [ha, hb] at h
              simp at h
              rw [← h, resolvedMarkup, iha x ha, ihb y hb]
  | element tag c ih =>
      intro d h
      simp only [renderAsyncMode] at h
      cases hc : renderAsyncMode c with
      | error e => rw [hc] at h; simp at h
      | ok x =>
          rw [hc] at h
          simp at h
          rw [← h, resolvedMarkup, ih x hc]
  | suspense blocking fb t ih =>
      intro d h
      simp only [renderAsyncMode] at h
      rw [resolvedMarkup, ih d h]
  | suspenseFailed blocking fb payload =>
      intro d h
      simp [renderAsyncMode] at h
  | errorBoundary errors c ih =>
      intro d h
      by_cases he : errors.isEmpty
      · simp only [renderAsyncMode, he, if_true] at h
        simp only [resolvedMarkup, renderErrorBoundary]
        rw [if_pos he]
        exact ih d h
      · simp [renderAsyncMode, he] at h
        simp only [resolvedMarkup, renderErrorBoundary]
        rw [if_neg he]
        exact h

/-- Claim C3 as amended: whenever async mode succeeds in producing a
document (every resource failure absorbed by an error boundary, no
fatal abort), the concatenation of the in-order chunks, in emission
order, is byte-for-byte that async document — exercised concretely by
the PostPage view, whose resources all resolve.  The unconditional
claim is refuted by `in_order_async_diverge_on_failure`: on an
unrecovered failed boundary async aborts and yields no document while
in-order delivers one with the error payload in place. -/
theorem in_order_equals_async_when_complete :
    (∀ (t : VTree) (d : String), renderAsyncMode t = .ok d →
        strConcat (renderInOrder t) = d) ∧
    (∃ d : String, renderAsyncMode (postPageTree "1") = .ok d ∧
        strConcat (renderInOrder (postPageTree "1")) = d) := by
  have main : ∀ (t : VTree) (d : String), renderAsyncMode t = .ok d →
      strConcat (renderInOrder t) = d := by
    intro t d h
    rw [renderInOrder_concat t, renderAsyncMode_ok t d h]
  exact ⟨main, resolvedMarkup (postPageTree "1"), rfl,
    main _ _ rfl⟩

/-- Closed instance of `in_order_equals_async_when_complete` at the
PostPage view for id 1. -/
theorem in_order_equals_async_when_complete_witness :
    strConcat (renderInOrder (postPageTree "1")) =
      resolvedMarkup (postPageTree "1") :=
  in_order_equals_async_when_complete.1 (postPageTree "1")
    (resolvedMarkup (postPageTree "1")) rfl

/-- Counterexample to claim C3 as stated: at the concrete tree
`seq (staticMarkup "a") (suspenseFailed false "fb" "ERR")` — a render
whose one boundary failed with no enclosing error boundary — async
mode aborts with the fatal error "ERR" and produces no document, while
the in-order chunks concatenate to the document "aERR"; the two modes
do not produce the same document. -/
theorem in_order_async_diverge_on_failure :
    renderAsyncMode
        (.seq (.staticMarkup "a") (.suspenseFailed false "fb" "ERR")) =
      .error "ERR" ∧
    (renderAsyncMode
        (.seq (.staticMarkup "a") (.suspenseFailed false "fb" "ERR"))).isOk =
      false ∧
    strConcat (renderInOrder
        (.seq (.staticMarkup "a") (.suspenseFailed false "fb" "ERR"))) =
      "aERR" := by
  refine ⟨rfl, rfl, ?_⟩
  rw [renderInOrder_concat]
  rfl

/-- Claim C4: a Resource transitions exactly once from Pending to a
terminal state within one render: every step starts at Pending and ends
terminal, no step leaves a terminal state, any transition chain from
Pending has at most one step, and settling a fetcher outcome is one
such step reaching a terminal state. -/
theorem resource_single_transition (V E : Type) :
    (∀ s t : RState V E, RStep s t → s = .pending ∧ t.terminal = true) ∧
    (∀ s t : RState V E, s.terminal = true → ¬ RStep s t) ∧
    (∀ l : List (RState V E), List.Chain RStep .pending l →
        l = [] ∨ ∃ t, l = [t] ∧ t.terminal = true) ∧
    (∀ r : Except E V, RStep (.pending : RState V E) (settle r) ∧
        (settle r).terminal = true) := by
  have hstep : ∀ s t : RState V E, RStep s t →
      s = .pending ∧ t.terminal = true := by
    intro s t h
    cases h with
    | resolve v => exact ⟨rfl, rfl⟩
    | fail e => exact ⟨rfl, rfl⟩
  have hterm : ∀ s t : RState V E, s.terminal = true → ¬ RStep s t := by
    intro s t hs h
    rcases hstep s t h with ⟨rfl, _⟩
    simp [RState.terminal] at hs
  refine ⟨hstep, hterm, ?_, ?_⟩
  · intro l hl
    cases l with
    | nil => exact Or.inl rfl
    | cons a l2 =>
        cases hl with
        | cons hab hchain =>
            right
            have ha := (hstep _ _ hab).2
            cases l2 with
            | nil => exact ⟨a, rfl, ha⟩
            | cons b l3 =>
                cases hchain with
                | cons hab2 _ => exact absurd hab2 (hterm _ _ ha)
  · intro r
    cases r with
    | ok v => exact ⟨RStep.resolve v, rfl⟩
    | error e => exact ⟨RStep.fail e, rfl⟩

/-- Closed instance of `resource_single_transition`: the one-step chain
Pending to Ready 5 is the whole trace and ends terminal. -/
theorem resource_single_transition_witness :
    ([RState.ready 5] = ([] : List (RState Nat Nat)) ∨
      ∃ t : RState Nat Nat, [RState.ready 5] = [t] ∧ t.terminal = true) :=
  (resource_single_transition Nat Nat).2.2.1 [RState.ready 5]
    (List.Chain.cons (RStep.resolve 5) List.Chain.nil)

/-- Claim C7: every resource key function in the example is the
constant `|| ()`, so within a single render the fetcher runs exactly
once — the first request on the fresh render-scoped cache evaluates it,
a repeated request with the same key shares the stored result without
re-evaluating — while a fresh render (fresh cache) recomputes from
scratch. -/
theorem resource_memoized_per_render (V : Type) (f : Unit → V) :
    (∀ a b : Unit, resourceKey a = resourceKey b) ∧
    (requestResource ([] : List (Unit × V)) (resourceKey ()) f).2.2 = true ∧
    (requestResource
        (requestResource ([] : List (Unit × V)) (resourceKey ()) f).2.1
        (resourceKey ()) f).2.2 = false ∧
    (requestResource
        (requestResource ([] : List (Unit × V)) (resourceKey ()) f).2.1
        (resourceKey ()) f).1 =
      (requestResource ([] : List (Unit × V)) (resourceKey ()) f).1 := by
  refine ⟨fun a b => rfl, rfl, ?_, ?_⟩ <;>
    simp [requestResource, lookupCache, resourceKey]

/-- Claim C2: when at least one (source, error) pair has been collected,
the error boundary renders its fallback: the heading
"Something went wrong." and one li per collected pair in insertion
order, each with the error's display string; the output is independent
of (so cannot contain) the failed subtree's content, and the tree
rendering of a failed error boundary is exactly the fallback with no
placeholder. -/
theorem error_boundary_absorbs (errors : List (String × PostError))
    (content : String) (h : errors ≠ []) :
    renderErrorBoundary errors content = errorFallbackView errors ∧
    (∃ pre post : String, renderErrorBoundary errors content =
        pre ++ "Something went wrong." ++ post) ∧
    (∀ se ∈ errors, ∃ pre post : String,
        renderErrorBoundary errors content =
          pre ++ ("<li>" ++ se.2.display ++ "</li>") ++ post) ∧
    (∀ other : String,
        renderErrorBoundary errors other = renderErrorBoundary errors content) ∧
    (∀ c : VTree,
        resolvedMarkup (.errorBoundary errors c) = errorFallbackView errors) := by
  have hne : errors.isEmpty = false := by
    cases errors with
    | nil => exact absurd rfl h
    | cons a l => rfl
  have hfb : renderErrorBoundary errors content = errorFallbackView errors := by
    simp [renderErrorBoundary, hne]
  refine ⟨hfb, ?_, ?_, ?_, ?_⟩
  · refine ⟨"<div class=\"error\"><h1>",
      "</h1><ul>" ++
        strConcat (errors.map (fun se => "<li>" ++ se.2.display ++ "</li>")) ++
        "</ul></div>", ?_⟩
    rw [hfb]
    unfold errorFallbackView
    simp only [← String.append_assoc]
    simp
  · intro se hse
    obtain ⟨l1, l2, rfl⟩ := List.append_of_mem hse
    refine ⟨"<div class=\"error\"><h1>Something went wrong.</h1><ul>" ++
        strConcat (l1.map (fun x => "<li>" ++ x.2.display ++ "</li>")),
      strConcat (l2.map (fun x => "<li>" ++ x.2.display ++ "</li>")) ++
        "</ul></div>", ?_⟩
    rw [hfb]
    unfold errorFallbackView
    rw [List.map_append, strConcat_append]
    simp only [strConcat]
    simp only [← String.append_assoc]
  · intro other
    simp [renderErrorBoundary, hne]
  · intro c
    simp [resolvedMarkup, renderErrorBoundary, hne]

/-- Closed instance of `error_boundary_absorbs` at two collected
errors and a concrete subtree content. -/
theorem error_boundary_absorbs_witness :
    renderErrorBoundary
        [("post", PostError.serverError), ("comments", PostError.postNotFound)]
        "<div class=\"post\">the content</div>" =
      errorFallbackView
        [("post", PostError.serverError),
         ("comments", PostError.postNotFound)] ∧
    (∃ pre post : String,
        renderErrorBoundary
            [("post", PostError.serverError),
             ("comments", PostError.postNotFound)]
            "<div class=\"post\">the content</div>" =
          pre ++ "Something went wrong." ++ post) ∧
    (∀ se ∈ [("post", PostError.serverError),
             ("comments", PostError.postNotFound)],
        ∃ pre post : String,
          renderErrorBoundary
              [("post", PostError.serverError),
               ("comments", PostError.postNotFound)]
              "<div class=\"post\">the content</div>" =
            pre ++ ("<li>" ++ se.2.display ++ "</li>") ++ post) ∧
    (∀ other : String,
        renderErrorBoundary
            [("post", PostError.serverError),
             ("comments", PostError.postNotFound)] other =
          renderErrorBoundary
            [("post", PostError.serverError),
             ("comments", PostError.postNotFound)]
            "<div class=\"post\">the content</div>") ∧
    (∀ c : VTree,
        resolvedMarkup (.errorBoundary
            [("post", PostError.serverError),
             ("comments", PostError.postNotFound)] c) =
          errorFallbackView
            [("post", PostError.serverError),
             ("comments", PostError.postNotFound)]) :=
  error_boundary_absorbs
    [("post", PostError.serverError), ("comments", PostError.postNotFound)]
    "<div class=\"post\">the content</div>" (List.cons_ne_nil _ _)

/-- Claim C5: under partially-blocked mode the HomePage blocking
boundary is resolved before the initial shell is flushed — the first
chunk carries the resolved posts list in place (the three Post
wrappers with their markers, in order) and not the "Loading posts..."
fallback — while the non-blocking Post boundaries still stream as
deferred chunks carrying the post contents. -/
theorem partially_blocked_home_shell :
    strContains (pbShell homePageTree 0).1 "Loading posts..." = false ∧
    strContains (pbShell homePageTree 0).1 "My Great Blog" = true ∧
    strContains (pbShell homePageTree 0).1 "<p>Loading post...</p>" = true ∧
    strContains (pbShell homePageTree 0).1 (placeholderMarker 0) = true ∧
    strContains (pbShell homePageTree 0).1 (placeholderMarker 1) = true ∧
    strContains (pbShell homePageTree 0).1 (placeholderMarker 2) = true ∧
    ((pbDeferred homePageTree 0).1.map Prod.fst) = [0, 1, 2] ∧
    strContains (strConcat ((pbDeferred homePageTree 0).1.map Prod.snd))
      "My first post" = true ∧
    renderPartiallyBlocked homePageTree =
      (pbShell homePageTree 0).1 ::
        ((pbDeferred homePageTree 0).1.map Prod.snd) := by
  refine ⟨?_, ?_, ?_, ?_, ?_, ?_, ?_, ?_, rfl⟩ <;> decide

end SsrModes
